import Mathlib

/-!
Verification development for the kube-client-template bootstrap.

The repository holds three near-duplicate bootstrap variants of one ~150-line
command: `src/cmd/root.go` (plain printing, an `--interactive` flag),
`src/unnamed/part_000` (zap logging, hidden kubernetes flag set) and
`src/unnamed/part_001` (zap logging, visible kubernetes flags).  Each variant
registers flags, resolves an optional application config file (viper), resolves
Kubernetes client credentials (client-go clientcmd), builds a client and lists
Pods once.

The embedding below has two layers.  The control-flow layer renders each
variant's `initConfig` and `PersistentPreRun` bodies over the outcomes of the
external library calls, which are inputs.  The library layer renders the parts
of viper and client-go clientcmd the program delegates to (config-file
discovery, kubeconfig loading rules, override merging, namespace resolution),
reduced to the fields this program observes; doc comments name the library
function each definition follows.
-/

namespace KubeClientTemplate

/-- Abstract error value carried by fallible steps. -/
structure Err where
  msg : String
deriving DecidableEq, Repr

/-- Result content of the Pods list API call. -/
structure PodList where
  items : List String
deriving DecidableEq, Repr

/-- A kubeconfig context entry (clientcmdapi.Context): cluster name, auth-info
name and namespace. -/
structure KContext where
  cluster : String
  authInfo : String
  nspace : String
deriving DecidableEq, Repr

def KContext.empty : KContext := ⟨"", "", ""⟩

/-- A kubeconfig cluster entry (clientcmdapi.Cluster), reduced to the server
URL, the field the spec names. -/
structure KCluster where
  server : String
deriving DecidableEq, Repr

def KCluster.empty : KCluster := ⟨""⟩

/-- A kubeconfig user entry (clientcmdapi.AuthInfo), reduced to the credential
fields the spec names. -/
structure KAuthInfo where
  token : String
  username : String
  password : String
deriving DecidableEq, Repr

def KAuthInfo.empty : KAuthInfo := ⟨"", "", ""⟩

/-- Parsed kubeconfig content (clientcmdapi.Config). -/
structure KubeConfig where
  currentContext : String
  contexts : List (String × KContext)
  clusters : List (String × KCluster)
  authInfos : List (String × KAuthInfo)
deriving DecidableEq, Repr

def KubeConfig.empty : KubeConfig := ⟨"", [], [], []⟩

/-- clientcmd.ConfigOverrides: the command-line override fields bound by
clientcmd.BindOverrideFlags. -/
structure ConfigOverrides where
  currentContext : String
  context : KContext
  clusterInfo : KCluster
  authInfo : KAuthInfo
deriving DecidableEq, Repr

def ConfigOverrides.empty : ConfigOverrides := ⟨"", KContext.empty, KCluster.empty, KAuthInfo.empty⟩

/-- mergo.MergeWithOverwrite on one string field: a non-empty overriding value
replaces the base value. -/
def overlay (base ov : String) : String := if ov = "" then base else ov

def mergeKContext (base ov : KContext) : KContext :=
  ⟨overlay base.cluster ov.cluster, overlay base.authInfo ov.authInfo,
   overlay base.nspace ov.nspace⟩

def mergeKCluster (base ov : KCluster) : KCluster := ⟨overlay base.server ov.server⟩

def mergeKAuthInfo (base ov : KAuthInfo) : KAuthInfo :=
  ⟨overlay base.token ov.token, overlay base.username ov.username,
   overlay base.password ov.password⟩

/-- Association-list lookup by name. -/
def assocFind {α : Type} (l : List (String × α)) (k : String) : Option α :=
  match l with
  | [] => none
  | (k0, v) :: rest => if k0 = k then some v else assocFind rest k

/-- Map merge where entries of the first list win (clientcmd Load: the first
file to set a value wins). -/
def firstWins {α : Type} (a b : List (String × α)) : List (String × α) :=
  a ++ b.filter (fun kv => (assocFind a kv.1).isNone)

/-- Merge of two kubeconfig files, the first one winning per value. -/
def mergeKubeConfig (a b : KubeConfig) : KubeConfig :=
  ⟨overlay b.currentContext a.currentContext, firstWins a.contexts b.contexts,
   firstWins a.clusters b.clusters, firstWins a.authInfos b.authInfos⟩

def mergeAll (l : List KubeConfig) : KubeConfig :=
  l.foldr (fun a acc => mergeKubeConfig a acc) KubeConfig.empty

/-- clientcmd.ClientConfigLoadingRules, reduced to the explicit path and the
precedence chain. -/
structure LoadingRules where
  explicitPath : String
  precedence : List String
deriving DecidableEq, Repr

/-- Order-preserving de-duplication, tracking the names already seen. -/
def dedupSeen : List String → List String → List String
  | _, [] => []
  | seen, x :: xs =>
    if seen.contains x then dedupSeen seen xs else x :: dedupSeen (x :: seen) xs

/-- Order-preserving de-duplication (clientcmd deduplicate). -/
def dedupKeepFirst (l : List String) : List String := dedupSeen [] l

/-- strings.Split on a separator character, over the character list. -/
def splitListOn (sep : Char) : List Char → List (List Char)
  | [] => [[]]
  | c :: cs =>
    let rest := splitListOn sep cs
    if c = sep then [] :: rest
    else
      match rest with
      | [] => [[c]]
      | r :: rs => (c :: r) :: rs

/-- filepath.SplitList for a non-empty value: split on the list separator. -/
def splitPathList (s : String) : List String :=
  (splitListOn ':' s.data).map (fun cs => String.mk cs)

/-- clientcmd.RecommendedHomeFile: the home directory joined with ".kube" and
"config" (with the empty-home join degenerating as filepath.Join does). -/
def recommendedHomeFile (homeDir : Option String) : String :=
  match homeDir with
  | some h => h ++ "/.kube/config"
  | none => ".kube/config"

/-- clientcmd.NewDefaultClientConfigLoadingRules: when the KUBECONFIG
environment variable is set its path list (split and de-duplicated) is the
precedence chain; otherwise the chain is just the recommended home file. -/
def newDefaultLoadingRules (kubeconfigEnvVar : String) (homeDir : Option String) :
    LoadingRules :=
  if kubeconfigEnvVar = "" then ⟨"", [recommendedHomeFile homeDir]⟩
  else ⟨"", dedupKeepFirst (splitPathList kubeconfigEnvVar)⟩

/-- The kubeconfig files on disk, as parsed content per path. -/
abbrev FileSystem := List (String × KubeConfig)

/-- The file names ClientConfigLoadingRules.Load reads: the explicit path alone
when one is set, otherwise the precedence chain with empty names skipped. -/
def loadFiles (r : LoadingRules) : List String :=
  if r.explicitPath = "" then r.precedence.filter (fun f => f ≠ "") else [r.explicitPath]

/-- ClientConfigLoadingRules.Load: a missing explicit file is an error; missing
files of the default chain are skipped silently; the files found are merged
with earlier files winning. -/
def load (r : LoadingRules) (fs : FileSystem) : Except Err KubeConfig :=
  if r.explicitPath = "" then
    .ok (mergeAll ((r.precedence.filter (fun f => f ≠ "")).filterMap (assocFind fs)))
  else
    match assocFind fs r.explicitPath with
    | some k => .ok k
    | none => .error ⟨"stat " ++ r.explicitPath ++ ": no such file or directory"⟩

def isConfigEmpty (c : KubeConfig) : Bool :=
  c.currentContext == "" && c.contexts.isEmpty && c.clusters.isEmpty && c.authInfos.isEmpty

def isEmptyOverrides (ov : ConfigOverrides) : Bool := ov == ConfigOverrides.empty

/-- clientcmd.ErrEmptyConfig, the error the deferred loader recognizes before
falling back to in-cluster configuration. -/
def errEmptyConfig : Err := ⟨"no configuration has been provided"⟩

/-- DirectClientConfig.getContextName: the command-line context override wins
over the file's current context. -/
def getContextName (cfg : KubeConfig) (ov : ConfigOverrides) : String × Bool :=
  if ov.currentContext = "" then (cfg.currentContext, false) else (ov.currentContext, true)

/-- DirectClientConfig.getContext: look the chosen context up and overlay the
field-wise context overrides; a context named by an override must exist. -/
def getContext (cfg : KubeConfig) (ov : ConfigOverrides) : Except Err KContext :=
  let nr := getContextName cfg ov
  match assocFind cfg.contexts nr.1 with
  | some c => .ok (mergeKContext c ov.context)
  | none =>
    if nr.2 then .error ⟨"context " ++ nr.1 ++ " does not exist"⟩
    else .ok (mergeKContext KContext.empty ov.context)

/-- DirectClientConfig.getCluster: the cluster named by the merged context,
with the cluster-info overrides overlaid; a cluster named by an override must
exist. -/
def getCluster (cfg : KubeConfig) (ov : ConfigOverrides) : Except Err KCluster :=
  match getContext cfg ov with
  | .error e => .error e
  | .ok ctx =>
    match assocFind cfg.clusters ctx.cluster with
    | some cl => .ok (mergeKCluster cl ov.clusterInfo)
    | none =>
      if ov.context.cluster ≠ "" then .error ⟨"cluster " ++ ctx.cluster ++ " does not exist"⟩
      else .ok (mergeKCluster KCluster.empty ov.clusterInfo)

/-- DirectClientConfig.getAuthInfo: the user entry named by the merged context,
with the auth-info overrides overlaid. -/
def getAuthInfo (cfg : KubeConfig) (ov : ConfigOverrides) : Except Err KAuthInfo :=
  match getContext cfg ov with
  | .error e => .error e
  | .ok ctx =>
    match assocFind cfg.authInfos ctx.authInfo with
    | some a => .ok (mergeKAuthInfo a ov.authInfo)
    | none =>
      if ov.context.authInfo ≠ "" then
        .error ⟨"auth info " ++ ctx.authInfo ++ " does not exist"⟩
      else .ok (mergeKAuthInfo KAuthInfo.empty ov.authInfo)

/-- clientcmd canIdentifyUser: identification is present when a token or a
username/password pair is set. -/
def canIdentifyUser (a : KAuthInfo) : Bool :=
  a.token != "" || (a.username != "" && a.password != "")

/-- getUserIdentificationPartialConfig: with identification missing and a
fallback reader present the credentials are prompted from the reader; with no
reader the merged (possibly empty) credentials are used as they are, and no
error is raised for the missing fields.  The Bool records whether the reader
was consulted. -/
def resolveAuth (merged : KAuthInfo) (reader : Option Unit) (promptCreds : KAuthInfo) :
    KAuthInfo × Bool :=
  if canIdentifyUser merged then (merged, false)
  else
    match reader with
    | some _ => (promptCreds, true)
    | none => (merged, false)

/-- The resolved REST client configuration (rest.Config), reduced to the fields
the spec names: server URL and auth material. -/
structure RestConfig where
  host : String
  token : String
  username : String
  password : String
deriving DecidableEq, Repr

/-- DirectClientConfig.ClientConfig: a wholly empty configuration with no
overrides is the empty-config error; otherwise the context, cluster and user
are resolved with field-wise override precedence, a cluster without a server is
a validation error, and missing user identification is prompted from the
fallback reader when one is present.  The Bool records reader use. -/
def directClientConfig (cfg : KubeConfig) (ov : ConfigOverrides) (reader : Option Unit)
    (promptCreds : KAuthInfo) : Except Err (RestConfig × Bool) :=
  if isConfigEmpty cfg && isEmptyOverrides ov then .error errEmptyConfig
  else
    match getCluster cfg ov with
    | .error e => .error e
    | .ok cl =>
      if cl.server = "" then .error ⟨"cluster has no server defined"⟩
      else
        match getAuthInfo cfg ov with
        | .error e => .error e
        | .ok a =>
          let ap := resolveAuth a reader promptCreds
          .ok (⟨cl.server, ap.1.token, ap.1.username, ap.1.password⟩, ap.2)

/-- DirectClientConfig.Namespace: the namespace override wins; an empty
configuration yields the empty-config error; otherwise the chosen context's
namespace, defaulting to "default". -/
def directNamespace (cfg : KubeConfig) (ov : ConfigOverrides) :
    String × Bool × Option Err :=
  if ov.context.nspace ≠ "" then (ov.context.nspace, true, none)
  else if isConfigEmpty cfg && isEmptyOverrides ov then ("", false, some errEmptyConfig)
  else
    match getContext cfg ov with
    | .error e => ("", false, some e)
    | .ok ctx => if ctx.nspace = "" then ("default", false, none) else (ctx.nspace, false, none)

/-- DeferredLoadingClientConfig.ClientConfig (merged_client_builder.go): load
and resolve; when the merged result is the empty-config error and in-cluster
configuration is possible, fall back to the in-cluster service-account
configuration.  (The comparison against a compiled-in default configuration is
not modelled.) -/
def deferredClientConfig (r : LoadingRules) (ov : ConfigOverrides) (reader : Option Unit)
    (promptCreds : KAuthInfo) (fs : FileSystem) (inCluster : Bool)
    (iccConfig : RestConfig) : Except Err (RestConfig × Bool) :=
  match load r fs with
  | .error e => .error e
  | .ok merged =>
    match directClientConfig merged ov reader promptCreds with
    | .ok out => .ok out
    | .error e =>
      if e = errEmptyConfig ∧ inCluster then .ok (iccConfig, false)
      else .error e

/-- DeferredLoadingClientConfig.Namespace (merged_client_builder.go): an
override wins outright; a real error passes through; outside a cluster the
underlying answer passes through; inside a cluster an explicit non-default
namespace wins and otherwise the service account's namespace is used. -/
def deferredNamespace (r : LoadingRules) (ov : ConfigOverrides) (fs : FileSystem)
    (inCluster : Bool) (iccNamespace : String) : String × Bool × Option Err :=
  match load r fs with
  | .error e => ("", false, some e)
  | .ok merged =>
    match directNamespace merged ov with
    | (ns, ovd, err) =>
      if ovd then (ns, ovd, err)
      else if err.isSome ∧ err ≠ some errEmptyConfig then (ns, ovd, err)
      else if ¬ inCluster then (ns, ovd, err)
      else if ns ≠ "" ∧ ns ≠ "default" then (ns, ovd, none)
      else (iccNamespace, false, none)

/-- The three bootstrap variant files of the repository. -/
inductive Variant
  | rootGo
  | part000
  | part001
deriving DecidableEq, Repr

/-- Invocation flag state after parsing.  kubeConfigFlag is the kubeconfig-path
flag exactly as given on the command line (none when absent). -/
structure Flags where
  cfgFile : String
  interactive : Bool
  kubeConfigFlag : Option String
  overrides : ConfigOverrides
  logLevelDebug : Bool
deriving DecidableEq, Repr

/-- Registered default of the kubeconfig-path flag: root.go's init uses the
recommended home file when the home directory resolves (and "" otherwise); the
logging variants register an empty default. -/
def kubeConfigFileDefault (v : Variant) (homeDir : Option String) : String :=
  match v, homeDir with
  | .rootGo, some h => h ++ "/.kube/config"
  | _, _ => ""

/-- Value of the package variable kubeConfigFile after flag parsing. -/
def kubeConfigFileValue (v : Variant) (homeDir : Option String) (flagArg : Option String) :
    String :=
  match flagArg with
  | some p => p
  | none => kubeConfigFileDefault v homeDir

/-- PersistentPreRun's loader setup: the default loading rules, with the
explicit path set whenever the kubeConfigFile variable is non-empty. -/
def loadingRulesOf (v : Variant) (flags : Flags) (kubeconfigEnvVar : String)
    (homeDir : Option String) : LoadingRules :=
  let base := newDefaultLoadingRules kubeconfigEnvVar homeDir
  let kcf := kubeConfigFileValue v homeDir flags.kubeConfigFlag
  if kcf = "" then base else { base with explicitPath := kcf }

/-- root.go's client-config choice: the interactive flag selects the
interactive deferred client config, whose fallback reader is standard input;
the logging variants always build the non-interactive one. -/
def clientConfigReader (v : Variant) (flags : Flags) : Option Unit :=
  match v with
  | .rootGo => if flags.interactive then some () else none
  | _ => none

/-- The pipeline steps an invocation can execute, in the CLI shell's wiring
order. -/
inductive Step
  | configResolver
  | credentialLoader
  | clientFactory
  | probeAction
  | commandAction
deriving DecidableEq, Repr

/-- User-visible output events of a run. -/
inductive Emit
  | usingConfigFile (path : String)
  | usingKubeConfig (path : String)
  | errorOut (e : Err)
  | nsDebug (ns : String)
  | printedList (r : Except Err PodList)
  | podsInfo (p : PodList)
deriving Repr

/-- How the process ends. -/
inductive Outcome
  | completed
  | exited (code : Nat)
  | panicked
deriving DecidableEq, Repr

/-- The process exit status of an outcome (a Go panic terminates with 2). -/
def exitCode : Outcome → Nat
  | .completed => 0
  | .exited c => c
  | .panicked => 2

/-- Outcomes of the external library calls PersistentPreRun makes, taken as
inputs by the control-flow layer. -/
structure PreRunInputs where
  clientConfigResult : Except Err RestConfig
  factoryPanics : Bool
  namespaceTriple : String × Bool × Option Err
  listResult : Except Err PodList

/-- Observable result of one invocation. -/
structure RunResult where
  steps : List Step
  emits : List Emit
  outcome : Outcome
  probeNamespace : Option String

/-- The config-file candidates initConfig gives viper: the explicit flag path
alone when set, otherwise the fixed base name searched in the home directory
(when it resolves) and the working directory.  (viper's multiple-extension
search is reduced to the representative yaml name.) -/
def configCandidates (cfgFile : String) (homeDir : Option String) : List String :=
  if cfgFile = "" then
    (homeDir.toList ++ ["."]).map (fun d => d ++ "/.kube-client-template.yaml")
  else [cfgFile]

/-- viper.ReadInConfig: the first candidate present on disk, none otherwise;
initConfig only checks the error for nil, so a failed read is swallowed. -/
def viperReadInConfig (cfgFile : String) (homeDir : Option String)
    (cfgFs : List String) : Option String :=
  (configCandidates cfgFile homeDir).find? (fun f => cfgFs.contains f)

/-- Result of initConfig: the file used, the outputs, and whether it crashed. -/
structure InitResult where
  usedFile : Option String
  emits : List Emit
  crashed : Bool

/-- initConfig per variant: on a found file, root.go and part_001 print its
name; part_000 calls Info on the package-level zap logger, which is still nil
at initializer time (cobra runs OnInitialize functions before
PersistentPreRun, and only PersistentPreRun builds the logger), so the call
dereferences a nil pointer and panics before emitting anything. -/
def initConfigStep (v : Variant) (cfgFile : String) (homeDir : Option String)
    (cfgFs : List String) : InitResult :=
  match viperReadInConfig cfgFile homeDir cfgFs with
  | none => ⟨none, [], false⟩
  | some f =>
    match v with
    | .part000 => ⟨some f, [], true⟩
    | _ => ⟨some f, [.usingConfigFile f], false⟩

/-- The "using specified kube config file" Info line of the logging variants,
emitted when the kubeConfigFile variable is non-empty (root.go has no logger
and prints nothing here). -/
def kcfEmitsOf (v : Variant) (flags : Flags) (homeDir : Option String) : List Emit :=
  match v with
  | .rootGo => []
  | _ =>
    if kubeConfigFileValue v homeDir flags.kubeConfigFlag = "" then []
    else [.usingKubeConfig (kubeConfigFileValue v homeDir flags.kubeConfigFlag)]

/-- The "running against namespace" Debug line of the logging variants,
visible only when the log level admits debug output. -/
def dbgEmitsOf (v : Variant) (flags : Flags) (ns : String) : List Emit :=
  match v with
  | .rootGo => []
  | _ => if flags.logLevelDebug then [.nsDebug ns] else []

/-- PersistentPreRun of each variant over the library-call outcomes: resolve
the client config (fatal on error: root.go prints the error and exits 1, the
logging variants call logger.Fatal), build the client (NewForConfigOrDie
panics on failure), take the namespace string and discard the rest of the
triple, then list Pods — root.go prints the whole (list, error) result and
continues, the logging variants treat a list error as fatal. -/
def persistentPreRun (v : Variant) (flags : Flags) (homeDir : Option String)
    (ins : PreRunInputs) : RunResult :=
  match ins.clientConfigResult with
  | .error e =>
    ⟨[.credentialLoader], kcfEmitsOf v flags homeDir ++ [.errorOut e], .exited 1, none⟩
  | .ok _ =>
    if ins.factoryPanics then
      ⟨[.credentialLoader, .clientFactory], kcfEmitsOf v flags homeDir, .panicked, none⟩
    else
      match v with
      | .rootGo =>
        ⟨[.credentialLoader, .clientFactory, .probeAction],
         kcfEmitsOf .rootGo flags homeDir ++ dbgEmitsOf .rootGo flags ins.namespaceTriple.1
           ++ [.printedList ins.listResult],
         .completed, some ins.namespaceTriple.1⟩
      | v' =>
        match ins.listResult with
        | .error e =>
          ⟨[.credentialLoader, .clientFactory, .probeAction],
           kcfEmitsOf v' flags homeDir ++ dbgEmitsOf v' flags ins.namespaceTriple.1
             ++ [.errorOut e],
           .exited 1, some ins.namespaceTriple.1⟩
        | .ok p =>
          ⟨[.credentialLoader, .clientFactory, .probeAction],
           kcfEmitsOf v' flags homeDir ++ dbgEmitsOf v' flags ins.namespaceTriple.1
             ++ [.podsInfo p],
           .completed, some ins.namespaceTriple.1⟩

/-- One invocation: cobra runs the OnInitialize functions (initConfig), then
PersistentPreRun, then dispatches to the command's action. -/
def runInvocation (v : Variant) (flags : Flags) (homeDir : Option String)
    (cfgFs : List String) (ins : PreRunInputs) : RunResult :=
  let ic := initConfigStep v flags.cfgFile homeDir cfgFs
  if ic.crashed then ⟨[.configResolver], ic.emits, .panicked, none⟩
  else
    let pr := persistentPreRun v flags homeDir ins
    match pr.outcome with
    | .completed =>
      ⟨.configResolver :: (pr.steps ++ [.commandAction]), ic.emits ++ pr.emits,
       .completed, pr.probeNamespace⟩
    | o => ⟨.configResolver :: pr.steps, ic.emits ++ pr.emits, o, pr.probeNamespace⟩

/-- The world one invocation runs in: home directory, KUBECONFIG environment
variable, kubeconfig files, application config files, in-cluster state,
interactive prompt input, and the outcomes of the client construction and the
list request. -/
structure WorldEnv where
  homeDir : Option String
  kubeconfigEnvVar : String
  fs : FileSystem
  cfgFs : List String
  inCluster : Bool
  iccConfig : RestConfig
  iccNamespace : String
  promptCreds : KAuthInfo
  factoryPanics : Bool
  listResult : Except Err PodList

/-- The library-call outcomes of a run, computed from the modelled clientcmd
behavior. -/
def mkPreRunInputs (v : Variant) (flags : Flags) (e : WorldEnv) : PreRunInputs :=
  let rules := loadingRulesOf v flags e.kubeconfigEnvVar e.homeDir
  let reader := clientConfigReader v flags
  { clientConfigResult :=
      (deferredClientConfig rules flags.overrides reader e.promptCreds e.fs
        e.inCluster e.iccConfig).map Prod.fst
  , factoryPanics := e.factoryPanics
  , namespaceTriple :=
      deferredNamespace rules flags.overrides e.fs e.inCluster e.iccNamespace
  , listResult := e.listResult }

/-- A whole invocation with the library layer plugged into the control flow. -/
def runFull (v : Variant) (flags : Flags) (e : WorldEnv) : RunResult :=
  runInvocation v flags e.homeDir e.cfgFs (mkPreRunInputs v flags e)

/-- The resolved client configuration of a run (C9's descriptor). -/
def resolvedClientConfigOf (v : Variant) (flags : Flags) (e : WorldEnv) :
    Except Err RestConfig :=
  (mkPreRunInputs v flags e).clientConfigResult

/-- The resolved namespace triple of a run. -/
def resolvedNamespaceOf (v : Variant) (flags : Flags) (e : WorldEnv) :
    String × Bool × Option Err :=
  (mkPreRunInputs v flags e).namespaceTriple

/-- The discovery chain exactly as claim C4 words it: the home-directory
default file first, then the environment-variable pointer, then in-cluster
service-account credentials. -/
inductive ClaimedSource
  | homeFile
  | envFiles
  | inClusterCreds
  | nothing
deriving DecidableEq, Repr

def claimedChainSource (homeFileExists envVarSet inCluster : Bool) : ClaimedSource :=
  if homeFileExists then .homeFile
  else if envVarSet then .envFiles
  else if inCluster then .inClusterCreds
  else .nothing

/-- The Config Resolver exactly as claim C3 words it: an explicit file that
exists is used; an explicit path that is missing falls back to the home/cwd
discovery. -/
def claimedConfigResolution (cfgFile : String) (homeDir : Option String)
    (cfgFs : List String) : Option String :=
  if cfgFile ≠ "" ∧ cfgFs.contains cfgFile then some cfgFile
  else
    ((homeDir.toList ++ ["."]).map (fun d => d ++ "/.kube-client-template.yaml")).find?
      (fun f => cfgFs.contains f)

/-- The canonical full step order of an invocation. -/
def canonicalSteps : List Step :=
  [.configResolver, .credentialLoader, .clientFactory, .probeAction, .commandAction]

/-- Per-variant outcome determined by the list request alone (used to state
that nothing else can fail a run that reached the probe). -/
def listOutcome (v : Variant) (r : Except Err PodList) : Outcome :=
  match v, r with
  | .rootGo, _ => .completed
  | _, .error _ => .exited 1
  | _, .ok _ => .completed

/-! Concrete fixtures used by witnesses and counterexamples. -/

def flags0 : Flags := ⟨"", false, none, ConfigOverrides.empty, false⟩

def err0 : Err := ⟨"boom"⟩

def rc0 : RestConfig := ⟨"https://example", "tok", "", ""⟩

def insOk : PreRunInputs := ⟨.ok rc0, false, ("default", false, none), .ok ⟨[]⟩⟩

def insListFail : PreRunInputs := ⟨.ok rc0, false, ("default", false, none), .error err0⟩

def insResFail : PreRunInputs := ⟨.error err0, false, ("", false, none), .ok ⟨[]⟩⟩

def insNsErr : PreRunInputs := ⟨.ok rc0, false, ("", false, some err0), .ok ⟨[]⟩⟩

def cfgFsHome : List String := ["/home/u/.kube-client-template.yaml"]

def kcHome : KubeConfig :=
  ⟨"ctx", [("ctx", ⟨"cl", "u", "team"⟩)], [("cl", ⟨"https://home.example"⟩)],
   [("u", ⟨"tok", "", ""⟩)]⟩

def kcEnvFile : KubeConfig :=
  ⟨"ectx", [("ectx", ⟨"ecl", "eu", ""⟩)], [("ecl", ⟨"https://env.example"⟩)],
   [("eu", ⟨"etok", "", ""⟩)]⟩

def kcNoAuth : KubeConfig := ⟨"ctx", [("ctx", ⟨"cl", "", ""⟩)], [("cl", ⟨"https://x"⟩)], []⟩

def pc0 : KAuthInfo := ⟨"ptok", "pu", "pp"⟩

def flagsInteractive : Flags := ⟨"", true, none, ConfigOverrides.empty, false⟩

def ovNs : ConfigOverrides := ⟨"", ⟨"", "", "probe-ns"⟩, KCluster.empty, KAuthInfo.empty⟩

def flagsNs : Flags := ⟨"", false, none, ovNs, false⟩

def envBoth : WorldEnv :=
  { homeDir := some "/home/u", kubeconfigEnvVar := "/envkc",
    fs := [("/home/u/.kube/config", kcHome), ("/envkc", kcEnvFile)], cfgFs := [],
    inCluster := false, iccConfig := ⟨"https://icc", "", "", ""⟩, iccNamespace := "",
    promptCreds := KAuthInfo.empty, factoryPanics := false, listResult := .ok ⟨[]⟩ }

def env1 : WorldEnv :=
  { homeDir := some "/home/u", kubeconfigEnvVar := "",
    fs := [("/home/u/.kube/config", kcHome)], cfgFs := [],
    inCluster := false, iccConfig := ⟨"https://icc", "", "", ""⟩, iccNamespace := "icc-ns",
    promptCreds := KAuthInfo.empty, factoryPanics := false, listResult := .ok ⟨[]⟩ }

def env2 : WorldEnv :=
  { env1 with cfgFs := ["/x"], listResult := .error err0, factoryPanics := true }

/-! Helper lemmas about the control-flow layer. -/

/-- A run that executed the probe received an ok client configuration. -/
theorem clientConfig_ok_of_probe (v : Variant) (flags : Flags) (homeDir : Option String)
    (cfgFs : List String) (ins : PreRunInputs)
    (h : Step.probeAction ∈ (runInvocation v flags homeDir cfgFs ins).steps) :
    ∃ rc, ins.clientConfigResult = Except.ok rc := by
  rcases hr : ins.clientConfigResult with e | rc
  · exfalso
    by_cases hc : (initConfigStep v flags.cfgFile homeDir cfgFs).crashed <;>
      simp [runInvocation, persistentPreRun, hc, hr] at h
  · exact ⟨rc, rfl⟩

/-- A run that executed the probe lists Pods in exactly the namespace string
returned by the namespace resolution. -/
theorem probeNamespace_of_run (v : Variant) (flags : Flags) (homeDir : Option String)
    (cfgFs : List String) (ins : PreRunInputs)
    (h : Step.probeAction ∈ (runInvocation v flags homeDir cfgFs ins).steps) :
    (runInvocation v flags homeDir cfgFs ins).probeNamespace =
      some ins.namespaceTriple.1 := by
  by_cases hc : (initConfigStep v flags.cfgFile homeDir cfgFs).crashed
  · simp [runInvocation, hc] at h
  · rcases hr : ins.clientConfigResult with e | rc
    · simp [runInvocation, persistentPreRun, hc, hr] at h
    · by_cases hf : ins.factoryPanics
      · simp [runInvocation, persistentPreRun, hc, hr, hf] at h
      · cases v <;> rcases hl : ins.listResult with e2 | p <;>
          simp [runInvocation, persistentPreRun, hc, hr, hf, hl]

/-- A successful deferred client configuration implies the load succeeded. -/
theorem load_ok_of_deferred_ok (r : LoadingRules) (ov : ConfigOverrides)
    (reader : Option Unit) (pc : KAuthInfo) (fs : FileSystem) (ic : Bool)
    (icc : RestConfig) (out : RestConfig × Bool)
    (h : deferredClientConfig r ov reader pc fs ic icc = .ok out) :
    ∃ merged, load r fs = .ok merged := by
  rcases hl : load r fs with e | m
  · simp [deferredClientConfig, hl] at h
  · exact ⟨m, rfl⟩

/-- A successful mapped deferred client configuration was itself successful. -/
theorem deferred_ok_of_map_ok (r : LoadingRules) (ov : ConfigOverrides)
    (reader : Option Unit) (pc : KAuthInfo) (fs : FileSystem) (ic : Bool)
    (icc : RestConfig) (rc : RestConfig)
    (h : (deferredClientConfig r ov reader pc fs ic icc).map Prod.fst = .ok rc) :
    ∃ out, deferredClientConfig r ov reader pc fs ic icc = .ok out := by
  rcases hd : deferredClientConfig r ov reader pc fs ic icc with e | o
  · simp [hd, Except.map] at h
  · exact ⟨o, rfl⟩

/-- With a loadable kubeconfig, a set namespace override is the resolved
namespace, marked overridden, with no error. -/
theorem deferredNamespace_override (r : LoadingRules) (ov : ConfigOverrides)
    (fs : FileSystem) (ic : Bool) (iccNs : String) (merged : KubeConfig)
    (hl : load r fs = .ok merged) (hns : ov.context.nspace ≠ "") :
    deferredNamespace r ov fs ic iccNs = (ov.context.nspace, true, none) := by
  simp [deferredNamespace, hl, directNamespace, hns]

/-- A string extended with the kubeconfig suffix is never empty. -/
theorem append_kube_config_ne (h : String) : h ++ "/.kube/config" ≠ "" := by
  intro hcontra
  have hlen := congrArg String.length hcontra
  simp [String.length_append] at hlen
  exact absurd hlen.2 (by decide)

/-- Any context getContext returns has the context overrides overlaid. -/
theorem getContext_ok_shape (cfg : KubeConfig) (ov : ConfigOverrides) (c : KContext)
    (h : getContext cfg ov = .ok c) : ∃ base, c = mergeKContext base ov.context := by
  simp only [getContext] at h
  rcases ha : assocFind cfg.contexts (getContextName cfg ov).1 with _ | c0 <;>
    simp only [ha] at h
  · split at h
    · simp at h
    · simp only [Except.ok.injEq] at h
      exact ⟨KContext.empty, h.symm⟩
  · simp only [Except.ok.injEq] at h
    exact ⟨c0, h.symm⟩

/-- Any cluster getCluster returns has the cluster-info overrides overlaid. -/
theorem getCluster_ok_shape (cfg : KubeConfig) (ov : ConfigOverrides) (cl : KCluster)
    (h : getCluster cfg ov = .ok cl) : ∃ base, cl = mergeKCluster base ov.clusterInfo := by
  simp only [getCluster] at h
  rcases hctx : getContext cfg ov with e1 | ctx <;> simp only [hctx] at h
  · simp at h
  · rcases ha : assocFind cfg.clusters ctx.cluster with _ | cl0 <;> simp only [ha] at h
    · split at h
      · simp at h
      · simp only [Except.ok.injEq] at h
        exact ⟨KCluster.empty, h.symm⟩
    · simp only [Except.ok.injEq] at h
      exact ⟨cl0, h.symm⟩

/-- Any user entry getAuthInfo returns has the auth-info overrides overlaid. -/
theorem getAuthInfo_ok_shape (cfg : KubeConfig) (ov : ConfigOverrides) (a : KAuthInfo)
    (h : getAuthInfo cfg ov = .ok a) : ∃ base, a = mergeKAuthInfo base ov.authInfo := by
  simp only [getAuthInfo] at h
  rcases hctx : getContext cfg ov with e1 | ctx <;> simp only [hctx] at h
  · simp at h
  · rcases ha : assocFind cfg.authInfos ctx.authInfo with _ | a0 <;> simp only [ha] at h
    · split at h
      · simp at h
      · simp only [Except.ok.injEq] at h
        exact ⟨KAuthInfo.empty, h.symm⟩
    · simp only [Except.ok.injEq] at h
      exact ⟨a0, h.symm⟩

/-! The claims. -/

/-- C1 counterexample: in the root.go variant an invocation whose Pods list
request fails still terminates with exit status 0 — line 68 prints the failed
result with fmt.Println and never checks the error, so the process completes
normally. -/
theorem c1_counterexample :
    insListFail.listResult = Except.error err0 ∧
    (runInvocation .rootGo flags0 (some "/home/u") [] insListFail).outcome =
      Outcome.completed ∧
    exitCode (runInvocation .rootGo flags0 (some "/home/u") [] insListFail).outcome = 0 :=
  ⟨rfl, rfl, rfl⟩

/-- C1 (amended): for every run whose Pods list request fails and that reached
the probe, the logging variants report the error and exit with status 1, while
the plain root.go variant prints the failed result (error included) and exits
with status 0. -/
theorem c1_list_failure_by_variant (v : Variant) (flags : Flags) (homeDir : Option String)
    (cfgFs : List String) (ins : PreRunInputs) (e : Err) (rc : RestConfig)
    (hrc : ins.clientConfigResult = .ok rc) (hf : ins.factoryPanics = false)
    (hl : ins.listResult = .error e)
    (hreach : Step.credentialLoader ∈ (runInvocation v flags homeDir cfgFs ins).steps) :
    match v with
    | .rootGo =>
      (runInvocation v flags homeDir cfgFs ins).outcome = Outcome.completed ∧
      Emit.printedList (.error e) ∈ (runInvocation v flags homeDir cfgFs ins).emits
    | _ =>
      (runInvocation v flags homeDir cfgFs ins).outcome = Outcome.exited 1 ∧
      Emit.errorOut e ∈ (runInvocation v flags homeDir cfgFs ins).emits := by
  by_cases hc : (initConfigStep v flags.cfgFile homeDir cfgFs).crashed
  · simp [runInvocation, hc] at hreach
  · cases v <;> simp [runInvocation, persistentPreRun, hc, hrc, hf, hl]

/-- C1 witness: a concrete logging-variant run with a failing list request
exits 1 and reports the error. -/
theorem c1_list_failure_witness :
    (runInvocation .part001 flags0 (some "/home/u") [] insListFail).outcome =
      Outcome.exited 1 ∧
    Emit.errorOut err0 ∈ (runInvocation .part001 flags0 (some "/home/u") [] insListFail).emits :=
  c1_list_failure_by_variant .part001 flags0 (some "/home/u") [] insListFail err0 rc0
    rfl rfl rfl (by decide)

/-- C2: whenever the client-config resolution fails, every variant reports the
error and exits with status 1, and neither the client factory nor the Pods
list call (nor any other API call) runs. -/
theorem c2_resolution_failure_fatal (v : Variant) (flags : Flags) (homeDir : Option String)
    (cfgFs : List String) (ins : PreRunInputs) (e : Err)
    (hres : ins.clientConfigResult = .error e)
    (hreach : Step.credentialLoader ∈ (runInvocation v flags homeDir cfgFs ins).steps) :
    (runInvocation v flags homeDir cfgFs ins).outcome = Outcome.exited 1 ∧
    Emit.errorOut e ∈ (runInvocation v flags homeDir cfgFs ins).emits ∧
    Step.clientFactory ∉ (runInvocation v flags homeDir cfgFs ins).steps ∧
    Step.probeAction ∉ (runInvocation v flags homeDir cfgFs ins).steps := by
  by_cases hc : (initConfigStep v flags.cfgFile homeDir cfgFs).crashed
  · simp [runInvocation, hc] at hreach
  · simp [runInvocation, persistentPreRun, hc, hres]

/-- C2 witness: a concrete run with a failed resolution exits 1 with the error
reported and no factory or probe step. -/
theorem c2_resolution_failure_witness :
    (runInvocation .rootGo flags0 (some "/home/u") [] insResFail).outcome =
      Outcome.exited 1 ∧
    Emit.errorOut err0 ∈ (runInvocation .rootGo flags0 (some "/home/u") [] insResFail).emits ∧
    Step.clientFactory ∉ (runInvocation .rootGo flags0 (some "/home/u") [] insResFail).steps ∧
    Step.probeAction ∉ (runInvocation .rootGo flags0 (some "/home/u") [] insResFail).steps :=
  c2_resolution_failure_fatal .rootGo flags0 (some "/home/u") [] insResFail err0
    rfl (by decide)

/-- C3 counterexample: with an explicit --config path that does not exist and a
discoverable home config file present, the claimed fallback resolution would
use the home file, but initConfig pins viper to the explicit path, the read
fails silently and no file is used: the code does not fall back. -/
theorem c3_counterexample :
    claimedConfigResolution "missing.yaml" (some "/home/u") cfgFsHome =
      some "/home/u/.kube-client-template.yaml" ∧
    (initConfigStep .rootGo "missing.yaml" (some "/home/u") cfgFsHome).usedFile = none ∧
    (initConfigStep .rootGo "missing.yaml" (some "/home/u") cfgFsHome).usedFile ≠
      claimedConfigResolution "missing.yaml" (some "/home/u") cfgFsHome ∧
    (initConfigStep .rootGo "missing.yaml" (some "/home/u") cfgFsHome).emits = [] :=
  ⟨rfl, rfl, by decide, rfl⟩

/-- C3 (amended): an explicit --config path pointing to a nonexistent file is
not replaced by home/cwd discovery: in every variant no config file is used,
nothing is printed about it, and the run continues without crashing. -/
theorem c3_explicit_missing_silent (v : Variant) (cfgFile : String)
    (homeDir : Option String) (cfgFs : List String)
    (h1 : cfgFile ≠ "") (h2 : cfgFs.contains cfgFile = false) :
    (initConfigStep v cfgFile homeDir cfgFs).usedFile = none ∧
    (initConfigStep v cfgFile homeDir cfgFs).emits = [] ∧
    (initConfigStep v cfgFile homeDir cfgFs).crashed = false := by
  have h2' : ¬ (cfgFile ∈ cfgFs) := by simpa using h2
  simp [initConfigStep, viperReadInConfig, configCandidates, List.find?, h1, h2']

/-- C3 witness: the concrete missing explicit path of the counterexample is
silently ignored. -/
theorem c3_explicit_missing_witness :
    (initConfigStep .part001 "missing.yaml" (some "/home/u") cfgFsHome).usedFile = none ∧
    (initConfigStep .part001 "missing.yaml" (some "/home/u") cfgFsHome).emits = [] ∧
    (initConfigStep .part001 "missing.yaml" (some "/home/u") cfgFsHome).crashed = false :=
  c3_explicit_missing_silent .part001 "missing.yaml" (some "/home/u") cfgFsHome
    (by decide) (by decide)

/-- C6 counterexample: an invocation whose kubeconfig resolution fails executes
neither the Client Factory nor the Probe Action, so not every invocation
executes all four steps exactly once. -/
theorem c6_counterexample :
    (runInvocation .rootGo flags0 (some "/home/u") [] insResFail).steps =
      [Step.configResolver, Step.credentialLoader] ∧
    Step.clientFactory ∉ (runInvocation .rootGo flags0 (some "/home/u") [] insResFail).steps ∧
    Step.probeAction ∉ (runInvocation .rootGo flags0 (some "/home/u") [] insResFail).steps :=
  ⟨rfl, by decide, by decide⟩

/-- C6 (amended): the executed steps of any invocation form an initial segment
of the fixed order config resolver, credential loader, client factory, probe
action, command action — so each step runs at most once, never out of order,
and any command action runs only after all four pipeline steps; a fatal error
or crash cuts the sequence short. -/
theorem c6_step_order (v : Variant) (flags : Flags) (homeDir : Option String)
    (cfgFs : List String) (ins : PreRunInputs) :
    ∃ n, (runInvocation v flags homeDir cfgFs ins).steps = canonicalSteps.take n := by
  by_cases hc : (initConfigStep v flags.cfgFile homeDir cfgFs).crashed
  · exact ⟨1, by simp [runInvocation, hc, canonicalSteps]⟩
  · rcases hr : ins.clientConfigResult with e | rc
    · exact ⟨2, by simp [runInvocation, persistentPreRun, hc, hr, canonicalSteps]⟩
    · by_cases hf : ins.factoryPanics
      · exact ⟨3, by simp [runInvocation, persistentPreRun, hc, hr, hf, canonicalSteps]⟩
      · cases v
        · exact ⟨5, by simp [runInvocation, persistentPreRun, hc, hr, hf, canonicalSteps]⟩
        · rcases hl : ins.listResult with e2 | p
          · exact ⟨4, by simp [runInvocation, persistentPreRun, hc, hr, hf, hl, canonicalSteps]⟩
          · exact ⟨5, by simp [runInvocation, persistentPreRun, hc, hr, hf, hl, canonicalSteps]⟩
        · rcases hl : ins.listResult with e2 | p
          · exact ⟨4, by simp [runInvocation, persistentPreRun, hc, hr, hf, hl, canonicalSteps]⟩
          · exact ⟨5, by simp [runInvocation, persistentPreRun, hc, hr, hf, hl, canonicalSteps]⟩

/-- C7: in the part_000 variant any run that finds a config file panics before
emitting anything — initConfig runs in cobra's initializer phase, before
PersistentPreRun builds the zap logger, so its Info call dereferences a nil
logger; part_001 on the same input prints the message and completes. -/
theorem c7_nil_logger_crash :
    (runInvocation .part000 flags0 (some "/home/u") cfgFsHome insOk).outcome =
      Outcome.panicked ∧
    (runInvocation .part000 flags0 (some "/home/u") cfgFsHome insOk).steps =
      [Step.configResolver] ∧
    (runInvocation .part000 flags0 (some "/home/u") cfgFsHome insOk).emits = [] ∧
    (runInvocation .part001 flags0 (some "/home/u") cfgFsHome insOk).outcome =
      Outcome.completed ∧
    Emit.usingConfigFile "/home/u/.kube-client-template.yaml" ∈
      (runInvocation .part001 flags0 (some "/home/u") cfgFsHome insOk).emits := by
  refine ⟨rfl, rfl, rfl, rfl, ?_⟩
  have hs : (runInvocation .part001 flags0 (some "/home/u") cfgFsHome insOk).emits =
      [Emit.usingConfigFile "/home/u/.kube-client-template.yaml", Emit.podsInfo ⟨[]⟩] := rfl
  rw [hs]
  exact List.mem_cons_self _ _

/-- C10: the error component of the namespace-resolution triple is discarded by
PersistentPreRun: a run that reached the factory still executes the probe, the
Pods listing uses exactly the returned namespace string (possibly empty), and
the outcome is the one determined by the list request alone. -/
theorem c10_namespace_error_discarded (v : Variant) (flags : Flags)
    (homeDir : Option String) (cfgFs : List String) (ins : PreRunInputs)
    (ns : String) (b : Bool) (e : Err) (rc : RestConfig)
    (hns : ins.namespaceTriple = (ns, b, some e))
    (hrc : ins.clientConfigResult = .ok rc)
    (hf : ins.factoryPanics = false)
    (hreach : Step.credentialLoader ∈ (runInvocation v flags homeDir cfgFs ins).steps) :
    Step.probeAction ∈ (runInvocation v flags homeDir cfgFs ins).steps ∧
    (runInvocation v flags homeDir cfgFs ins).probeNamespace = some ns ∧
    (runInvocation v flags homeDir cfgFs ins).outcome = listOutcome v ins.listResult := by
  by_cases hc : (initConfigStep v flags.cfgFile homeDir cfgFs).crashed
  · simp [runInvocation, hc] at hreach
  · cases v <;> rcases hl : ins.listResult with e2 | p <;>
      simp [runInvocation, persistentPreRun, listOutcome, hc, hrc, hf, hns, hl]

/-- C10 witness: a concrete run whose namespace resolution returned an error
and the empty string still lists Pods in the empty namespace and completes. -/
theorem c10_namespace_error_witness :
    Step.probeAction ∈ (runInvocation .rootGo flags0 (some "/home/u") [] insNsErr).steps ∧
    (runInvocation .rootGo flags0 (some "/home/u") [] insNsErr).probeNamespace = some "" ∧
    (runInvocation .rootGo flags0 (some "/home/u") [] insNsErr).outcome =
      listOutcome .rootGo insNsErr.listResult :=
  c10_namespace_error_discarded .rootGo flags0 (some "/home/u") [] insNsErr "" false
    err0 rc0 rfl rfl rfl (by decide)

/-- C4 counterexample: with no kubeconfig flag, the home file present on disk
AND the KUBECONFIG environment pointer set, the chain the claim words (home
file first) would use the home file, but the logging variants read only the
environment file — the existing home file is not consulted and the resolved
server is the environment file's. -/
theorem c4_counterexample :
    claimedChainSource true true false = ClaimedSource.homeFile ∧
    loadFiles (loadingRulesOf .part000 flags0 "/envkc" (some "/home/u")) = ["/envkc"] ∧
    "/home/u/.kube/config" ∉
      loadFiles (loadingRulesOf .part000 flags0 "/envkc" (some "/home/u")) ∧
    (assocFind envBoth.fs "/home/u/.kube/config").isSome = true ∧
    resolvedClientConfigOf .part000 flags0 envBoth =
      .ok ⟨"https://env.example", "etok", "", ""⟩ :=
  ⟨rfl, rfl, by decide, rfl, rfl⟩

/-- C4 (amended): with no kubeconfig path on the command line, the logging
variants use the default chain — the files of the KUBECONFIG environment
variable when it is set, otherwise the home-directory default file, with the
in-cluster configuration as fallback when the merged result is empty — while
root.go defaults the flag to the home-directory file and installs it as the
explicit path, so the environment pointer is never consulted there. -/
theorem c4_discovery_chain (v : Variant) (flags : Flags) (envVar : String)
    (homeDir : Option String) (hflag : flags.kubeConfigFlag = none) :
    (v ≠ Variant.rootGo →
      (loadingRulesOf v flags envVar homeDir).explicitPath = "" ∧
      (loadingRulesOf v flags envVar homeDir).precedence =
        (if envVar = "" then [recommendedHomeFile homeDir]
         else dedupKeepFirst (splitPathList envVar))) ∧
    (∀ h, v = Variant.rootGo → homeDir = some h →
      (loadingRulesOf v flags envVar homeDir).explicitPath = h ++ "/.kube/config" ∧
      loadFiles (loadingRulesOf v flags envVar homeDir) = [h ++ "/.kube/config"]) ∧
    (∀ (r : LoadingRules) (ov : ConfigOverrides) (pc : KAuthInfo) (fs : FileSystem)
        (icc : RestConfig) (merged : KubeConfig),
      load r fs = .ok merged → isConfigEmpty merged = true → isEmptyOverrides ov = true →
      deferredClientConfig r ov none pc fs true icc = .ok (icc, false)) := by
  refine ⟨?_, ?_, ?_⟩
  · intro hv
    cases v
    · exact absurd rfl hv
    · constructor <;>
        · simp [loadingRulesOf, kubeConfigFileValue, kubeConfigFileDefault,
            newDefaultLoadingRules, hflag]
          split <;> rfl
    · constructor <;>
        · simp [loadingRulesOf, kubeConfigFileValue, kubeConfigFileDefault,
            newDefaultLoadingRules, hflag]
          split <;> rfl
  · intro h hv hh
    subst hv; subst hh
    have hne := append_kube_config_ne h
    constructor <;>
      simp [loadingRulesOf, loadFiles, kubeConfigFileValue, kubeConfigFileDefault,
        hflag, hne]
  · intro r ov pc fs icc merged hm he ho
    simp [deferredClientConfig, hm, directClientConfig, he, ho, errEmptyConfig]

/-- C4 witness: the logging variant with the environment pointer set uses its
path list as the chain, with no explicit path. -/
theorem c4_discovery_chain_witness :
    (loadingRulesOf .part000 flags0 "/envkc" (some "/home/u")).explicitPath = "" ∧
    (loadingRulesOf .part000 flags0 "/envkc" (some "/home/u")).precedence =
      (if "/envkc" = "" then [recommendedHomeFile (some "/home/u")]
       else dedupKeepFirst (splitPathList "/envkc")) :=
  (c4_discovery_chain .part000 flags0 "/envkc" (some "/home/u") rfl).1 (by decide)

/-- C5: for each connection field, a non-empty override flag value wins over
the value discovered from the kubeconfig — the chosen context name, the merged
context's cluster, auth-info and namespace fields, the cluster server and the
auth token — and the namespace override is exactly the namespace the Probe
Action lists Pods in. -/
theorem c5_overrides_precedence (cfg : KubeConfig) (ov : ConfigOverrides)
    (v : Variant) (flags : Flags) (e : WorldEnv)
    (hov : flags.overrides = ov) :
    (ov.currentContext ≠ "" → (getContextName cfg ov).1 = ov.currentContext) ∧
    (∀ c, getContext cfg ov = .ok c →
      (ov.context.cluster ≠ "" → c.cluster = ov.context.cluster) ∧
      (ov.context.authInfo ≠ "" → c.authInfo = ov.context.authInfo) ∧
      (ov.context.nspace ≠ "" → c.nspace = ov.context.nspace)) ∧
    (∀ cl, getCluster cfg ov = .ok cl →
      ov.clusterInfo.server ≠ "" → cl.server = ov.clusterInfo.server) ∧
    (∀ a, getAuthInfo cfg ov = .ok a →
      ov.authInfo.token ≠ "" → a.token = ov.authInfo.token) ∧
    (ov.context.nspace ≠ "" → (directNamespace cfg ov).1 = ov.context.nspace) ∧
    (ov.context.nspace ≠ "" →
      Step.probeAction ∈ (runFull v flags e).steps →
      (runFull v flags e).probeNamespace = some ov.context.nspace) := by
  subst hov
  refine ⟨?_, ?_, ?_, ?_, ?_, ?_⟩
  · intro h; simp [getContextName, h]
  · intro c hc
    obtain ⟨base, rfl⟩ := getContext_ok_shape cfg flags.overrides c hc
    refine ⟨?_, ?_, ?_⟩ <;> intro h <;> simp [mergeKContext, overlay, h]
  · intro cl hcl h
    obtain ⟨base, rfl⟩ := getCluster_ok_shape cfg flags.overrides cl hcl
    simp [mergeKCluster, overlay, h]
  · intro a ha h
    obtain ⟨base, rfl⟩ := getAuthInfo_ok_shape cfg flags.overrides a ha
    simp [mergeKAuthInfo, overlay, h]
  · intro h; simp [directNamespace, h]
  · intro h hmem
    obtain ⟨rc, hrc⟩ := clientConfig_ok_of_probe v flags e.homeDir e.cfgFs
      (mkPreRunInputs v flags e) hmem
    have hpn := probeNamespace_of_run v flags e.homeDir e.cfgFs
      (mkPreRunInputs v flags e) hmem
    simp only [mkPreRunInputs] at hrc
    obtain ⟨out, hout⟩ := deferred_ok_of_map_ok _ _ _ _ _ _ _ _ hrc
    obtain ⟨merged, hload⟩ := load_ok_of_deferred_ok _ _ _ _ _ _ _ _ hout
    have hdn := deferredNamespace_override
      (loadingRulesOf v flags e.kubeconfigEnvVar e.homeDir) flags.overrides e.fs
      e.inCluster e.iccNamespace merged hload h
    simp only [runFull] at hpn ⊢
    rw [hpn]
    simp [mkPreRunInputs, hdn]

/-- C5 witness: a concrete run with a namespace override lists Pods in the
overridden namespace. -/
theorem c5_overrides_precedence_witness :
    (runFull .part000 flagsNs env1).probeNamespace = some "probe-ns" :=
  (c5_overrides_precedence kcHome ovNs .part000 flagsNs env1 rfl).2.2.2.2.2
    (by decide) (by decide)

/-- C8: root.go selects the interactive deferred client config (fallback
reader standard input) exactly when the interactive flag is set and the
logging variants never do; with the reader present and user identification
missing, the credentials are read from the prompt and resolution succeeds
instead of failing, and with no reader nothing is prompted. -/
theorem c8_interactive_prompting (flags : Flags) (a promptCreds : KAuthInfo)
    (cfg : KubeConfig) (ov : ConfigOverrides) (server : String)
    (hmiss : canIdentifyUser a = false)
    (hne : (isConfigEmpty cfg && isEmptyOverrides ov) = false)
    (hcl : getCluster cfg ov = .ok ⟨server⟩)
    (hs : server ≠ "")
    (ha : getAuthInfo cfg ov = .ok a) :
    (clientConfigReader .rootGo flags = if flags.interactive then some () else none) ∧
    clientConfigReader .part000 flags = none ∧
    clientConfigReader .part001 flags = none ∧
    resolveAuth a (some ()) promptCreds = (promptCreds, true) ∧
    resolveAuth a none promptCreds = (a, false) ∧
    directClientConfig cfg ov (some ()) promptCreds =
      .ok (⟨server, promptCreds.token, promptCreds.username, promptCreds.password⟩, true) := by
  refine ⟨rfl, rfl, rfl, ?_, ?_, ?_⟩
  · simp [resolveAuth, hmiss]
  · simp [resolveAuth, hmiss]
  · simp [directClientConfig, hne, hcl, hs, ha, resolveAuth, hmiss]

/-- C8 witness: with the interactive flag set, a kubeconfig with a server but
no user entry resolves by prompting the credentials from standard input. -/
theorem c8_interactive_witness :
    clientConfigReader .rootGo flagsInteractive = some () ∧
    clientConfigReader .part000 flagsInteractive = none ∧
    clientConfigReader .part001 flagsInteractive = none ∧
    resolveAuth KAuthInfo.empty (some ()) pc0 = (pc0, true) ∧
    resolveAuth KAuthInfo.empty none pc0 = (KAuthInfo.empty, false) ∧
    directClientConfig kcNoAuth ConfigOverrides.empty (some ()) pc0 =
      .ok (⟨"https://x", "ptok", "pu", "pp"⟩, true) :=
  c8_interactive_prompting flagsInteractive KAuthInfo.empty pc0 kcNoAuth
    ConfigOverrides.empty "https://x" rfl rfl rfl (by decide) rfl

/-- C9: the resolved client configuration and namespace triple are a
deterministic function of the invocation flags and the kubeconfig-relevant
world (files, environment pointer, home directory, in-cluster data, prompt
input): two runs agreeing on those agree on the resolution, whatever the
unrelated inputs (application config files, list outcome, factory behavior)
are. -/
theorem c9_deterministic_resolution (v : Variant) (flags1 flags2 : Flags)
    (e1 e2 : WorldEnv)
    (hf : flags1 = flags2) (hh : e1.homeDir = e2.homeDir)
    (hk : e1.kubeconfigEnvVar = e2.kubeconfigEnvVar) (hfs : e1.fs = e2.fs)
    (hic : e1.inCluster = e2.inCluster) (hicc : e1.iccConfig = e2.iccConfig)
    (hin : e1.iccNamespace = e2.iccNamespace) (hp : e1.promptCreds = e2.promptCreds) :
    resolvedClientConfigOf v flags1 e1 = resolvedClientConfigOf v flags2 e2 ∧
    resolvedNamespaceOf v flags1 e1 = resolvedNamespaceOf v flags2 e2 := by
  subst hf
  constructor <;>
    simp only [resolvedClientConfigOf, resolvedNamespaceOf, mkPreRunInputs,
      hh, hk, hfs, hic, hicc, hin, hp]

/-- C9 witness: two concrete runs differing only in the application config
files, the list outcome and the factory behavior resolve identically. -/
theorem c9_deterministic_witness :
    resolvedClientConfigOf .part001 flagsNs env1 = resolvedClientConfigOf .part001 flagsNs env2 ∧
    resolvedNamespaceOf .part001 flagsNs env1 = resolvedNamespaceOf .part001 flagsNs env2 :=
  c9_deterministic_resolution .part001 flagsNs flagsNs env1 env2
    rfl rfl rfl rfl rfl rfl rfl rfl

end KubeClientTemplate
